import Mathlib

/-!
# USBLogger: the volume ejector `EjectVolumeByPath`

A shallow embedding of `core_c/src/device_utils.c`.  The function talks to the
operating system through `CreateFileW`, `DeviceIoControl`, `Sleep`,
`CloseHandle`, `GetLastError` and the C runtime `wprintf`/`fwprintf`.  A run is
modelled as a function of the outcomes of these calls (`OsCalls`): the handle
returned by the open, and for every later request its success flag together with
the error code `GetLastError` reports after it.  The run yields the returned
`BOOL` and the ordered list of calls it made (`Event`), diagnostics included.
-/

namespace USBLogger

/-! ## Constants -/

/-- Line 5: `#define MAX_EJECT_RETRIES 3`. -/
def MAX_EJECT_RETRIES : Nat := 3

/-- Line 6: `#define EJECT_RETRY_DELAY_MS 500`. -/
def EJECT_RETRY_DELAY_MS : Nat := 500

/-- Windows SDK (`winerror.h`): `ERROR_ACCESS_DENIED` is 5. -/
def ERROR_ACCESS_DENIED : Nat := 5

/-- Windows SDK (`winerror.h`): `ERROR_BUSY` is 170. -/
def ERROR_BUSY : Nat := 170

/-- A Windows `HANDLE`, as the integer value of the pointer. -/
abbrev HANDLE := Int

/-- Windows SDK: `INVALID_HANDLE_VALUE` is `(HANDLE)(LONG_PTR)-1`. -/
def INVALID_HANDLE_VALUE : HANDLE := -1

/-- The `LPCWSTR volumePath` argument, e.g. the volume path of drive `E:`. -/
abbrev LPCWSTR := String

/-! ## The operating system seen from one run -/

/-- Outcome of one `DeviceIoControl` request: the returned `BOOL` as a success
flag, and the code `GetLastError()` yields right after the call. -/
structure Outcome where
  ok : Bool
  err : Nat
deriving DecidableEq, Repr

/-- Outcomes of the OS calls of one run.  `lock i` is the outcome of the
`FSCTL_LOCK_VOLUME` request made in loop iteration `retryCount = i`. -/
structure OsCalls where
  /-- Value returned by `CreateFileW` for a path. -/
  CreateFileW : LPCWSTR → HANDLE
  /-- `GetLastError()` after `CreateFileW`. -/
  openErr : Nat
  lock : Nat → Outcome
  dismount : Outcome
  eject : Outcome
  unlock : Outcome

/-- Control codes passed to `DeviceIoControl` by this file. -/
inductive CtlCode
  | FSCTL_LOCK_VOLUME
  | FSCTL_DISMOUNT_VOLUME
  | IOCTL_STORAGE_EJECT_MEDIA
  | FSCTL_UNLOCK_VOLUME
deriving DecidableEq, Repr

/-- The diagnostics the function writes, one constructor per live
`wprintf`/`fwprintf` call (lines 35, 60, 85, 108, 127); the calls that are
commented out in the source write nothing and have no constructor. -/
inductive Diag
  /-- Line 35, stderr: "Failed to get handle for %s. Error code: %lu". -/
  | openFailed (volumePath : LPCWSTR) (dwError : Nat)
  /-- Line 60, stdout: "Retrying lock after delay...". -/
  | retryingLock
  /-- Line 85, stderr: "Failed to dismount volume %s. Error: %lu". -/
  | dismountFailed (volumePath : LPCWSTR) (dwError : Nat)
  /-- Line 108, stderr: "Failed to eject media for %s via IOCTL. Error: %lu". -/
  | ejectFailed (volumePath : LPCWSTR) (dwError : Nat)
  /-- Line 127, stderr: "Warning: Failed to unlock volume %s after operation. Error: %lu". -/
  | unlockFailed (volumePath : LPCWSTR) (dwError : Nat)
deriving DecidableEq, Repr

/-- One call made by the function, in program order. -/
inductive Event
  | CreateFileW (volumePath : LPCWSTR)
  | DeviceIoControl (hVolume : HANDLE) (code : CtlCode)
  | Sleep (ms : Nat)
  | CloseHandle (hVolume : HANDLE)
  | print (d : Diag)
deriving DecidableEq, Repr

/-- Result of a run: the returned `BOOL` and the calls made. -/
structure Run where
  ret : Bool
  trace : List Event
deriving DecidableEq, Repr

/-! ## The code -/

/-- Lines 40-69: the lock retry loop, entered at the loop test with the current
`retryCount` and `bLockSuccess`.  Returns the value of `bLockSuccess` when the
loop is left and the calls made from this point on.  The recursion is on
`MAX_EJECT_RETRIES - retryCount`, so the function is total. -/
@[semireducible]
def lockLoop (os : OsCalls) (hVolume : HANDLE) (retryCount : Nat) (bLockSuccess : Bool) :
    Bool × List Event :=
  if retryCount < MAX_EJECT_RETRIES then
    let bLockSuccess := (os.lock retryCount).ok
    if bLockSuccess then
      (bLockSuccess, [Event.DeviceIoControl hVolume CtlCode.FSCTL_LOCK_VOLUME])
    else
      let dwError := (os.lock retryCount).err
      if (dwError = ERROR_ACCESS_DENIED ∨ dwError = ERROR_BUSY)
          ∧ retryCount < MAX_EJECT_RETRIES - 1 then
        let rest := lockLoop os hVolume (retryCount + 1) bLockSuccess
        (rest.1, [Event.DeviceIoControl hVolume CtlCode.FSCTL_LOCK_VOLUME,
                  Event.print Diag.retryingLock,
                  Event.Sleep EJECT_RETRY_DELAY_MS] ++ rest.2)
      else
        (false, [Event.DeviceIoControl hVolume CtlCode.FSCTL_LOCK_VOLUME])
  else
    (bLockSuccess, [])
termination_by MAX_EJECT_RETRIES - retryCount
decreasing_by omega

/-- Lines 10-136: `BOOL EjectVolumeByPath(LPCWSTR volumePath)`. -/
def EjectVolumeByPath (os : OsCalls) (volumePath : LPCWSTR) : Run :=
  let hVolume := os.CreateFileW volumePath
  if hVolume = INVALID_HANDLE_VALUE then
    { ret := false,
      trace := [Event.CreateFileW volumePath,
                Event.print (Diag.openFailed volumePath os.openErr)] }
  else
    let locked := lockLoop os hVolume 0 false
    let bLockSuccess := locked.1
    let bDismountSuccess := os.dismount.ok
    if !bDismountSuccess then
      { ret := false,
        trace := [Event.CreateFileW volumePath] ++ locked.2
          ++ [Event.DeviceIoControl hVolume CtlCode.FSCTL_DISMOUNT_VOLUME,
              Event.print (Diag.dismountFailed volumePath os.dismount.err)]
          ++ (if bLockSuccess then
                [Event.DeviceIoControl hVolume CtlCode.FSCTL_UNLOCK_VOLUME]
              else [])
          ++ [Event.CloseHandle hVolume] }
    else
      let bEjectSuccess := os.eject.ok
      let bUnlockSuccess := os.unlock.ok
      { ret := bEjectSuccess,
        trace := [Event.CreateFileW volumePath] ++ locked.2
          ++ [Event.DeviceIoControl hVolume CtlCode.FSCTL_DISMOUNT_VOLUME,
              Event.DeviceIoControl hVolume CtlCode.IOCTL_STORAGE_EJECT_MEDIA]
          ++ (if !bEjectSuccess then
                [Event.print (Diag.ejectFailed volumePath os.eject.err)]
              else [])
          ++ (if bLockSuccess then
                [Event.DeviceIoControl hVolume CtlCode.FSCTL_UNLOCK_VOLUME]
                  ++ (if !bUnlockSuccess then
                        [Event.print (Diag.unlockFailed volumePath os.unlock.err)]
                      else [])
              else [])
          ++ [Event.CloseHandle hVolume] }

/-! ## Vocabulary of the specification -/

/-- Line 59, first conjunct: the error code is contention-class. -/
def isContention (dwError : Nat) : Prop :=
  dwError = ERROR_ACCESS_DENIED ∨ dwError = ERROR_BUSY

instance isContentionDecidable (dwError : Nat) : Decidable (isContention dwError) :=
  inferInstanceAs (Decidable (dwError = ERROR_ACCESS_DENIED ∨ dwError = ERROR_BUSY))

/-- The lock request on a handle. -/
abbrev evLock (h : HANDLE) : Event := Event.DeviceIoControl h CtlCode.FSCTL_LOCK_VOLUME

/-- The dismount request on a handle. -/
abbrev evDismount (h : HANDLE) : Event := Event.DeviceIoControl h CtlCode.FSCTL_DISMOUNT_VOLUME

/-- The eject command on a handle. -/
abbrev evEject (h : HANDLE) : Event := Event.DeviceIoControl h CtlCode.IOCTL_STORAGE_EJECT_MEDIA

/-- The unlock request on a handle. -/
abbrev evUnlock (h : HANDLE) : Event := Event.DeviceIoControl h CtlCode.FSCTL_UNLOCK_VOLUME

/-- The notice printed before each retry. -/
abbrev evRetry : Event := Event.print Diag.retryingLock

/-- The wait between two lock attempts. -/
abbrev evWait : Event := Event.Sleep EJECT_RETRY_DELAY_MS

/-- The event is a diagnostic print, not an OS operation. -/
def Event.isPrint : Event → Bool
  | Event.print _ => true
  | _ => false

/-- The event is a wait. -/
def Event.isSleep : Event → Bool
  | Event.Sleep _ => true
  | _ => false

/-- The event closes a handle. -/
def Event.isClose : Event → Bool
  | Event.CloseHandle _ => true
  | _ => false

/-- The event is a `DeviceIoControl` request with the given control code, on any handle. -/
def Event.isCtl (c : CtlCode) : Event → Bool
  | Event.DeviceIoControl _ c1 => decide (c1 = c)
  | _ => false

/-- The OS operations of a trace: everything but the diagnostics. -/
def osOps (tr : List Event) : List Event := tr.filter (fun e => !e.isPrint)

/-- Number of requests with control code `c` in a trace. -/
def numCtl (c : CtlCode) (tr : List Event) : Nat := tr.countP (Event.isCtl c)

/-- Number of waits in a trace. -/
def numWaits (tr : List Event) : Nat := tr.countP Event.isSleep

/-- Number of handle closes in a trace. -/
def numCloses (tr : List Event) : Nat := tr.countP Event.isClose

/-- Value of `bLockSuccess` when the lock step is left (line 70). -/
def lockHeld (os : OsCalls) (volumePath : LPCWSTR) : Bool :=
  (lockLoop os (os.CreateFileW volumePath) 0 false).1

/-- Calls of a lock step that makes `k + 1` attempts: each of the first `k` attempts is
followed by the retry notice and the wait, the last one by nothing. -/
def lockPattern (h : HANDLE) : Nat → List Event
  | 0 => [evLock h]
  | k + 1 => [evLock h, evRetry, evWait] ++ lockPattern h k

/-! ## Sample runs -/

/-- Lock busy twice, then acquired; dismount succeeds; eject fails. -/
def osBusyTwice : OsCalls :=
  { CreateFileW := fun _ => 7, openErr := 0,
    lock := fun i => if i < 2 then ⟨false, ERROR_BUSY⟩ else ⟨true, 0⟩,
    dismount := ⟨true, 0⟩, eject := ⟨false, 21⟩, unlock := ⟨true, 0⟩ }

/-- The open fails with error 2 (file not found). -/
def osNoVolume : OsCalls :=
  { CreateFileW := fun _ => INVALID_HANDLE_VALUE, openErr := 2,
    lock := fun _ => ⟨true, 0⟩,
    dismount := ⟨true, 0⟩, eject := ⟨true, 0⟩, unlock := ⟨true, 0⟩ }

/-- Lock acquired at once; the dismount fails and so does the unlock that follows. -/
def osDismountFails : OsCalls :=
  { CreateFileW := fun _ => 7, openErr := 0,
    lock := fun _ => ⟨true, 0⟩,
    dismount := ⟨false, 5⟩, eject := ⟨true, 0⟩, unlock := ⟨false, 158⟩ }

/-- Every lock attempt is refused with `ERROR_ACCESS_DENIED`; dismount and eject succeed. -/
def osAlwaysDenied : OsCalls :=
  { CreateFileW := fun _ => 7, openErr := 0,
    lock := fun _ => ⟨false, ERROR_ACCESS_DENIED⟩,
    dismount := ⟨true, 0⟩, eject := ⟨true, 0⟩, unlock := ⟨true, 0⟩ }

/-- The first lock attempt is busy, the second fails with error 1 (invalid function), which
is not contention-class; dismount and eject succeed. -/
def osLockUnsupported : OsCalls :=
  { CreateFileW := fun _ => 7, openErr := 0,
    lock := fun i => if i < 1 then ⟨false, ERROR_BUSY⟩ else ⟨false, 1⟩,
    dismount := ⟨true, 0⟩, eject := ⟨true, 0⟩, unlock := ⟨true, 0⟩ }

/-- The only lock attempt fails with error 1 (invalid function); dismount and eject succeed. -/
def osLockRefused : OsCalls :=
  { CreateFileW := fun _ => 7, openErr := 0,
    lock := fun _ => ⟨false, 1⟩,
    dismount := ⟨true, 0⟩, eject := ⟨true, 0⟩, unlock := ⟨true, 0⟩ }

/-- Lock acquired at once; dismount and eject succeed; the final unlock fails with error 158
(not locked). -/
def osUnlockFails : OsCalls :=
  { CreateFileW := fun _ => 7, openErr := 0,
    lock := fun _ => ⟨true, 0⟩,
    dismount := ⟨true, 0⟩, eject := ⟨true, 0⟩, unlock := ⟨false, 158⟩ }

/-! ## The lock loop in closed form -/

/-- One unfolding of the loop, with the source's condition read through `isContention`. -/
theorem lockLoop_unfold (os : OsCalls) (hVolume : HANDLE) (retryCount : Nat) (b : Bool) :
    lockLoop os hVolume retryCount b =
      if retryCount < MAX_EJECT_RETRIES then
        if (os.lock retryCount).ok = true then (true, [evLock hVolume])
        else if isContention (os.lock retryCount).err ∧ retryCount < MAX_EJECT_RETRIES - 1 then
          ((lockLoop os hVolume (retryCount + 1) false).1,
            [evLock hVolume, evRetry, evWait] ++ (lockLoop os hVolume (retryCount + 1) false).2)
        else (false, [evLock hVolume])
      else (b, []) := by
  rw [lockLoop]
  by_cases hn : retryCount < MAX_EJECT_RETRIES
  · by_cases hk : (os.lock retryCount).ok = true
    · simp [hn, hk]
    · simp [hn, hk, isContention]
  · simp [hn]

/-- If the attempts before attempt `k` all fail with contention and attempt `k` stops the
loop (it succeeds, or fails without contention, or is the last one allowed), the loop makes
exactly the calls of `lockPattern h k` and leaves `bLockSuccess` at the outcome of attempt `k`. -/
theorem lockLoop_stop (os : OsCalls) (h : HANDLE) (k : Nat) (hk : k < MAX_EJECT_RETRIES)
    (hpre : ∀ j, j < k → (os.lock j).ok = false ∧ isContention (os.lock j).err)
    (hstop : (os.lock k).ok = true ∨ ¬ isContention (os.lock k).err
      ∨ k = MAX_EJECT_RETRIES - 1) :
    lockLoop os h 0 false = ((os.lock k).ok, lockPattern h k) := by
  rw [lockLoop_unfold os h 0, lockLoop_unfold os h (0 + 1), lockLoop_unfold os h (0 + 1 + 1)]
  simp only [MAX_EJECT_RETRIES] at hk hstop
  interval_cases k
  · cases hok : (os.lock 0).ok
    · have hc : ¬ isContention (os.lock 0).err := by simpa [hok] using hstop
      simp [hok, hc, MAX_EJECT_RETRIES, lockPattern]
    · simp [hok, MAX_EJECT_RETRIES, lockPattern]
  · have h0 := hpre 0 (by omega)
    cases hok : (os.lock 1).ok
    · have hc : ¬ isContention (os.lock 1).err := by simpa [hok] using hstop
      simp [hok, hc, h0.1, h0.2, MAX_EJECT_RETRIES, lockPattern]
    · simp [hok, h0.1, h0.2, MAX_EJECT_RETRIES, lockPattern]
  · have h0 := hpre 0 (by omega)
    have h1 := hpre 1 (by omega)
    cases hok : (os.lock 2).ok <;>
      simp [hok, h0.1, h0.2, h1.1, h1.2, MAX_EJECT_RETRIES, lockPattern]

/-- Every lock step stops at some attempt `k < MAX_EJECT_RETRIES`. -/
theorem lockLoop_shape (os : OsCalls) (h : HANDLE) :
    ∃ k held, k < MAX_EJECT_RETRIES
      ∧ (∀ j, j < k → (os.lock j).ok = false ∧ isContention (os.lock j).err)
      ∧ ((os.lock k).ok = true ∨ ¬ isContention (os.lock k).err ∨ k = MAX_EJECT_RETRIES - 1)
      ∧ held = (os.lock k).ok
      ∧ lockLoop os h 0 false = (held, lockPattern h k) := by
  have key : ∃ k, k < MAX_EJECT_RETRIES
      ∧ (∀ j, j < k → (os.lock j).ok = false ∧ isContention (os.lock j).err)
      ∧ ((os.lock k).ok = true ∨ ¬ isContention (os.lock k).err
          ∨ k = MAX_EJECT_RETRIES - 1) := by
    by_cases s0 : (os.lock 0).ok = true ∨ ¬ isContention (os.lock 0).err
    · exact ⟨0, by decide, fun j hj => absurd hj (Nat.not_lt_zero j),
        s0.elim Or.inl (fun c => Or.inr (Or.inl c))⟩
    · have f0 : (os.lock 0).ok = false ∧ isContention (os.lock 0).err := by
        rw [not_or, not_not] at s0
        exact ⟨by simpa using s0.1, s0.2⟩
      by_cases s1 : (os.lock 1).ok = true ∨ ¬ isContention (os.lock 1).err
      · refine ⟨1, by decide, ?_, s1.elim Or.inl (fun c => Or.inr (Or.inl c))⟩
        intro j hj
        have : j = 0 := by omega
        subst this
        exact f0
      · have f1 : (os.lock 1).ok = false ∧ isContention (os.lock 1).err := by
          rw [not_or, not_not] at s1
          exact ⟨by simpa using s1.1, s1.2⟩
        refine ⟨2, by decide, ?_, Or.inr (Or.inr rfl)⟩
        intro j hj
        have : j = 0 ∨ j = 1 := by omega
        rcases this with rfl | rfl
        · exact f0
        · exact f1
  obtain ⟨k, hk, hpre, hstop⟩ := key
  exact ⟨k, (os.lock k).ok, hk, hpre, hstop, rfl, lockLoop_stop os h k hk hpre hstop⟩

/-- With the open successful, a lock step that stops at attempt `k` puts `k + 1` lock
requests and `k` waits in the trace, and the unlock is requested once if the lock is held and
never otherwise. -/
theorem trace_counts (os : OsCalls) (volumePath : LPCWSTR)
    (hopen : os.CreateFileW volumePath ≠ INVALID_HANDLE_VALUE) (k : Nat) (held : Bool)
    (hk : k < MAX_EJECT_RETRIES)
    (hl : lockLoop os (os.CreateFileW volumePath) 0 false
      = (held, lockPattern (os.CreateFileW volumePath) k)) :
    numCtl CtlCode.FSCTL_LOCK_VOLUME (EjectVolumeByPath os volumePath).trace = k + 1 ∧
    numWaits (EjectVolumeByPath os volumePath).trace = k ∧
    numCtl CtlCode.FSCTL_UNLOCK_VOLUME (EjectVolumeByPath os volumePath).trace
      = (if held = true then 1 else 0) := by
  simp only [MAX_EJECT_RETRIES] at hk
  interval_cases k <;> cases held <;> cases hd : os.dismount.ok <;> cases he : os.eject.ok <;>
    cases hu : os.unlock.ok <;>
    simp [EjectVolumeByPath, hopen, hd, he, hu, hl, lockPattern, numCtl, numWaits,
      Event.isCtl, Event.isSleep]

/-- The lock is held after the lock step exactly when one of the lock attempts made
succeeded. -/
theorem lockHeld_iff_attempt_ok (os : OsCalls) (volumePath : LPCWSTR)
    (hopen : os.CreateFileW volumePath ≠ INVALID_HANDLE_VALUE) :
    lockHeld os volumePath = true ↔
      ∃ i, i < numCtl CtlCode.FSCTL_LOCK_VOLUME (EjectVolumeByPath os volumePath).trace
        ∧ (os.lock i).ok = true := by
  obtain ⟨k, held, hk, hpre, -, hheld, hl⟩ := lockLoop_shape os (os.CreateFileW volumePath)
  rw [(trace_counts os volumePath hopen k held hk hl).1]
  have hlh : lockHeld os volumePath = held := by simp [lockHeld, hl]
  rw [hlh]
  constructor
  · intro h
    exact ⟨k, Nat.lt_succ_self k, by rw [← hheld]; exact h⟩
  · rintro ⟨i, hi, hok⟩
    rcases Nat.lt_or_ge i k with hlt | hge
    · rw [(hpre i hlt).1] at hok
      exact absurd hok (by decide)
    · have : i = k := by omega
      subst this
      rw [hheld]; exact hok

/-! ## The claims -/

/-- C1: when the open and the dismount succeed the returned BOOL is the outcome of the
eject command, whatever the lock and unlock outcomes (they are arbitrary in `os`);
and the result is TRUE exactly when open, dismount and eject all succeeded. -/
theorem result_is_eject_outcome (os : OsCalls) (volumePath : LPCWSTR) :
    (os.CreateFileW volumePath ≠ INVALID_HANDLE_VALUE → os.dismount.ok = true →
      ∀ (lock1 : Nat → Outcome) (unlock1 : Outcome),
        (EjectVolumeByPath { os with lock := lock1, unlock := unlock1 } volumePath).ret
          = os.eject.ok) ∧
    ((EjectVolumeByPath os volumePath).ret = true ↔
      (os.CreateFileW volumePath ≠ INVALID_HANDLE_VALUE ∧ os.dismount.ok = true
        ∧ os.eject.ok = true)) := by
  constructor
  · intro hopen hdis lock1 unlock1
    simp [EjectVolumeByPath, hopen, hdis]
  · by_cases hopen : os.CreateFileW volumePath = INVALID_HANDLE_VALUE
    · simp [EjectVolumeByPath, hopen]
    · cases hdis : os.dismount.ok <;> simp [EjectVolumeByPath, hopen, hdis]

/-- Witness of C1 (`result_is_eject_outcome`) on the busy-twice run, with the lock and
unlock outcomes replaced by failures. -/
theorem result_is_eject_outcome_witness :
    (EjectVolumeByPath { osBusyTwice with lock := fun _ => ⟨false, 1⟩, unlock := ⟨false, 158⟩ }
        "E:").ret = osBusyTwice.eject.ok :=
  (result_is_eject_outcome osBusyTwice "E:").1 (by decide) rfl (fun _ => ⟨false, 1⟩) ⟨false, 158⟩

/-- C2: when `CreateFileW` returns `INVALID_HANDLE_VALUE` the function returns FALSE and the
only OS operation is the failed open; the whole trace is the open and its diagnostic. -/
theorem open_failure_stops (os : OsCalls) (volumePath : LPCWSTR)
    (hopen : os.CreateFileW volumePath = INVALID_HANDLE_VALUE) :
    (EjectVolumeByPath os volumePath).ret = false ∧
    osOps (EjectVolumeByPath os volumePath).trace = [Event.CreateFileW volumePath] ∧
    (EjectVolumeByPath os volumePath).trace
      = [Event.CreateFileW volumePath, Event.print (Diag.openFailed volumePath os.openErr)] := by
  simp [EjectVolumeByPath, hopen, osOps, Event.isPrint]

/-- Witness of C2 (`open_failure_stops`). -/
theorem open_failure_stops_witness :
    (EjectVolumeByPath osNoVolume "E:").ret = false ∧
    osOps (EjectVolumeByPath osNoVolume "E:").trace = [Event.CreateFileW "E:"] ∧
    (EjectVolumeByPath osNoVolume "E:").trace
      = [Event.CreateFileW "E:", Event.print (Diag.openFailed "E:" osNoVolume.openErr)] :=
  open_failure_stops osNoVolume "E:" rfl

/-- C3: when the open succeeds and the dismount fails, the function returns FALSE, no eject
command is issued, the handle is closed once, and the OS operations end with
dismount, unlock, close when the lock is held (one unlock in all) and with dismount, close
and no unlock at all when it is not. -/
theorem dismount_failure_cleanup (os : OsCalls) (volumePath : LPCWSTR)
    (hopen : os.CreateFileW volumePath ≠ INVALID_HANDLE_VALUE)
    (hdis : os.dismount.ok = false) :
    (EjectVolumeByPath os volumePath).ret = false ∧
    numCtl CtlCode.IOCTL_STORAGE_EJECT_MEDIA (EjectVolumeByPath os volumePath).trace = 0 ∧
    numCloses (EjectVolumeByPath os volumePath).trace = 1 ∧
    numCtl CtlCode.FSCTL_DISMOUNT_VOLUME (EjectVolumeByPath os volumePath).trace = 1 ∧
    (lockHeld os volumePath = true →
      numCtl CtlCode.FSCTL_UNLOCK_VOLUME (EjectVolumeByPath os volumePath).trace = 1 ∧
      ∃ pre, osOps (EjectVolumeByPath os volumePath).trace
        = pre ++ [evDismount (os.CreateFileW volumePath), evUnlock (os.CreateFileW volumePath),
                  Event.CloseHandle (os.CreateFileW volumePath)]) ∧
    (lockHeld os volumePath = false →
      numCtl CtlCode.FSCTL_UNLOCK_VOLUME (EjectVolumeByPath os volumePath).trace = 0 ∧
      ∃ pre, osOps (EjectVolumeByPath os volumePath).trace
        = pre ++ [evDismount (os.CreateFileW volumePath),
                  Event.CloseHandle (os.CreateFileW volumePath)]) := by
  obtain ⟨k, held, hk, -, -, -, hl⟩ := lockLoop_shape os (os.CreateFileW volumePath)
  simp only [MAX_EJECT_RETRIES] at hk
  refine ⟨?_, ?_, ?_, ?_, ?_, ?_⟩
  · simp [EjectVolumeByPath, hopen, hdis]
  · interval_cases k <;> cases held <;>
      simp [EjectVolumeByPath, hopen, hdis, hl, lockPattern, numCtl, Event.isCtl]
  · interval_cases k <;> cases held <;>
      simp [EjectVolumeByPath, hopen, hdis, hl, lockPattern, numCloses, Event.isClose]
  · interval_cases k <;> cases held <;>
      simp [EjectVolumeByPath, hopen, hdis, hl, lockPattern, numCtl, Event.isCtl]
  · intro hheld
    have hh : held = true := by simpa [lockHeld, hl] using hheld
    subst hh
    refine ⟨?_, (osOps (EjectVolumeByPath os volumePath).trace).take
      ((osOps (EjectVolumeByPath os volumePath).trace).length - 3), ?_⟩ <;>
    interval_cases k <;>
      simp [EjectVolumeByPath, hopen, hdis, hl, lockPattern, numCtl, Event.isCtl, osOps,
        Event.isPrint]
  · intro hheld
    have hh : held = false := by simpa [lockHeld, hl] using hheld
    subst hh
    refine ⟨?_, (osOps (EjectVolumeByPath os volumePath).trace).take
      ((osOps (EjectVolumeByPath os volumePath).trace).length - 2), ?_⟩ <;>
    interval_cases k <;>
      simp [EjectVolumeByPath, hopen, hdis, hl, lockPattern, numCtl, Event.isCtl, osOps,
        Event.isPrint]

/-- Witness of C3 (`dismount_failure_cleanup`): lock held, dismount refused. -/
theorem dismount_failure_cleanup_witness :
    (EjectVolumeByPath osDismountFails "E:").ret = false ∧
    numCtl CtlCode.IOCTL_STORAGE_EJECT_MEDIA (EjectVolumeByPath osDismountFails "E:").trace = 0 ∧
    numCloses (EjectVolumeByPath osDismountFails "E:").trace = 1 ∧
    numCtl CtlCode.FSCTL_UNLOCK_VOLUME (EjectVolumeByPath osDismountFails "E:").trace = 1 :=
  have h := dismount_failure_cleanup osDismountFails "E:" (by decide) rfl
  ⟨h.1, h.2.1, h.2.2.1, (h.2.2.2.2.1 (by decide)).1⟩

/-- C4: when the open succeeds the trace is some calls, none of them a close, followed by the
close of the volume handle: one close, in last position, on every path. -/
theorem handle_closed_once_last (os : OsCalls) (volumePath : LPCWSTR)
    (hopen : os.CreateFileW volumePath ≠ INVALID_HANDLE_VALUE) :
    numCloses (EjectVolumeByPath os volumePath).trace = 1 ∧
    ∃ pre, (EjectVolumeByPath os volumePath).trace
        = pre ++ [Event.CloseHandle (os.CreateFileW volumePath)]
      ∧ ∀ e, e ∈ pre → e.isClose = false := by
  obtain ⟨k, held, hk, -, -, -, hl⟩ := lockLoop_shape os (os.CreateFileW volumePath)
  simp only [MAX_EJECT_RETRIES] at hk
  refine ⟨?_, (EjectVolumeByPath os volumePath).trace.dropLast, ?_⟩ <;>
  interval_cases k <;> cases held <;> cases hd : os.dismount.ok <;> cases he : os.eject.ok <;>
    cases hu : os.unlock.ok <;>
    simp [EjectVolumeByPath, hopen, hd, he, hu, hl, lockPattern, numCloses, Event.isClose]

/-- Witness of C4 (`handle_closed_once_last`) on the busy-twice run. -/
theorem handle_closed_once_last_witness :
    numCloses (EjectVolumeByPath osBusyTwice "E:").trace = 1 ∧
    ∃ pre, (EjectVolumeByPath osBusyTwice "E:").trace = pre ++ [Event.CloseHandle 7]
      ∧ ∀ e, e ∈ pre → e.isClose = false :=
  handle_closed_once_last osBusyTwice "E:" (by decide)

/-- C5: when the open succeeds, the unlock is requested exactly once if one of the lock
attempts made succeeded and never otherwise; when requested it is the last OS operation
before the close, after every lock attempt. -/
theorem unlock_iff_lock_acquired (os : OsCalls) (volumePath : LPCWSTR)
    (hopen : os.CreateFileW volumePath ≠ INVALID_HANDLE_VALUE) :
    ((∃ i, i < numCtl CtlCode.FSCTL_LOCK_VOLUME (EjectVolumeByPath os volumePath).trace
          ∧ (os.lock i).ok = true) →
      numCtl CtlCode.FSCTL_UNLOCK_VOLUME (EjectVolumeByPath os volumePath).trace = 1 ∧
      ∃ pre, osOps (EjectVolumeByPath os volumePath).trace
          = pre ++ [evUnlock (os.CreateFileW volumePath),
                    Event.CloseHandle (os.CreateFileW volumePath)]
        ∧ numCtl CtlCode.FSCTL_LOCK_VOLUME pre
            = numCtl CtlCode.FSCTL_LOCK_VOLUME (EjectVolumeByPath os volumePath).trace
        ∧ numCtl CtlCode.FSCTL_UNLOCK_VOLUME pre = 0 ∧ numCloses pre = 0) ∧
    ((¬ ∃ i, i < numCtl CtlCode.FSCTL_LOCK_VOLUME (EjectVolumeByPath os volumePath).trace
          ∧ (os.lock i).ok = true) →
      numCtl CtlCode.FSCTL_UNLOCK_VOLUME (EjectVolumeByPath os volumePath).trace = 0) := by
  rw [← lockHeld_iff_attempt_ok os volumePath hopen]
  obtain ⟨k, held, hk, -, -, -, hl⟩ := lockLoop_shape os (os.CreateFileW volumePath)
  have hlh : lockHeld os volumePath = held := by simp [lockHeld, hl]
  rw [hlh]
  have hc := (trace_counts os volumePath hopen k held hk hl).2.2
  simp only [MAX_EJECT_RETRIES] at hk
  constructor
  · intro hh
    subst hh
    refine ⟨by simpa using hc, (osOps (EjectVolumeByPath os volumePath).trace).take
      ((osOps (EjectVolumeByPath os volumePath).trace).length - 2), ?_⟩
    interval_cases k <;> cases hd : os.dismount.ok <;> cases he : os.eject.ok <;>
      cases hu : os.unlock.ok <;>
      simp [EjectVolumeByPath, hopen, hd, he, hu, hl, lockPattern, numCtl, numCloses,
        Event.isCtl, Event.isClose, osOps, Event.isPrint]
  · intro hh
    simpa [hh] using hc

/-- Witness of C5 (`unlock_iff_lock_acquired`): the third attempt of the busy-twice run
succeeds, so one unlock is requested. -/
theorem unlock_iff_lock_acquired_witness :
    numCtl CtlCode.FSCTL_UNLOCK_VOLUME (EjectVolumeByPath osBusyTwice "E:").trace = 1 :=
  ((unlock_iff_lock_acquired osBusyTwice "E:" (by decide)).1 ⟨2, by decide, by decide⟩).1

/-- C6: when the open succeeds there are at most 3 lock attempts and at most 2 waits; if the
three attempts all fail with a contention-class error, the OS operations are the open, three
lock attempts separated by one wait of 500 ms each, then the dismount with no wait before it,
and nothing later is a lock, a wait or an unlock; the lock is recorded as not held. -/
theorem lock_retry_bounded (os : OsCalls) (volumePath : LPCWSTR)
    (hopen : os.CreateFileW volumePath ≠ INVALID_HANDLE_VALUE) :
    numCtl CtlCode.FSCTL_LOCK_VOLUME (EjectVolumeByPath os volumePath).trace ≤ 3 ∧
    numWaits (EjectVolumeByPath os volumePath).trace ≤ 2 ∧
    ((∀ i, i < MAX_EJECT_RETRIES → (os.lock i).ok = false ∧ isContention (os.lock i).err) →
      numCtl CtlCode.FSCTL_LOCK_VOLUME (EjectVolumeByPath os volumePath).trace = 3 ∧
      numWaits (EjectVolumeByPath os volumePath).trace = 2 ∧
      lockHeld os volumePath = false ∧
      numCtl CtlCode.FSCTL_UNLOCK_VOLUME (EjectVolumeByPath os volumePath).trace = 0 ∧
      ∃ rest, osOps (EjectVolumeByPath os volumePath).trace
          = [Event.CreateFileW volumePath,
             evLock (os.CreateFileW volumePath), Event.Sleep 500,
             evLock (os.CreateFileW volumePath), Event.Sleep 500,
             evLock (os.CreateFileW volumePath),
             evDismount (os.CreateFileW volumePath)] ++ rest
        ∧ numCtl CtlCode.FSCTL_LOCK_VOLUME rest = 0 ∧ numWaits rest = 0
        ∧ numCtl CtlCode.FSCTL_UNLOCK_VOLUME rest = 0) := by
  refine ⟨?_, ?_, ?_⟩
  · obtain ⟨k, held, hk, -, -, -, hl⟩ := lockLoop_shape os (os.CreateFileW volumePath)
    rw [(trace_counts os volumePath hopen k held hk hl).1]
    simp only [MAX_EJECT_RETRIES] at hk
    omega
  · obtain ⟨k, held, hk, -, -, -, hl⟩ := lockLoop_shape os (os.CreateFileW volumePath)
    rw [(trace_counts os volumePath hopen k held hk hl).2.1]
    simp only [MAX_EJECT_RETRIES] at hk
    omega
  · intro hall
    have hl := lockLoop_stop os (os.CreateFileW volumePath) 2 (by decide)
      (fun j hj => hall j (by simp only [MAX_EJECT_RETRIES]; omega)) (Or.inr (Or.inr rfl))
    rw [(hall 2 (by decide)).1] at hl
    have hc := trace_counts os volumePath hopen 2 false (by decide) hl
    refine ⟨hc.1, hc.2.1, by simp [lockHeld, hl], by simpa using hc.2.2,
      (osOps (EjectVolumeByPath os volumePath).trace).drop 7, ?_⟩
    cases hd : os.dismount.ok <;> cases he : os.eject.ok <;> cases hu : os.unlock.ok <;>
      simp [EjectVolumeByPath, hopen, hd, he, hu, hl, lockPattern, numCtl, numWaits,
        Event.isCtl, Event.isSleep, osOps, Event.isPrint, EJECT_RETRY_DELAY_MS]

/-- Witness of C6 (`lock_retry_bounded`): every attempt is refused with access denied. -/
theorem lock_retry_bounded_witness :
    numCtl CtlCode.FSCTL_LOCK_VOLUME (EjectVolumeByPath osAlwaysDenied "E:").trace = 3 ∧
    numWaits (EjectVolumeByPath osAlwaysDenied "E:").trace = 2 ∧
    lockHeld osAlwaysDenied "E:" = false :=
  have h := (lock_retry_bounded osAlwaysDenied "E:" (by decide)).2.2
    (fun _ _ => ⟨rfl, Or.inl rfl⟩)
  ⟨h.1, h.2.1, h.2.2.1⟩

/-- C7: when the open succeeds and a lock attempt that is made (attempt number `k`, counted
from 0) fails with an error that is not contention-class, it is the last attempt: `k + 1`
attempts and `k` waits in all, the OS operation right after it is the dismount, no lock and no
wait come later, the lock is recorded as not held and no unlock is requested. -/
theorem lock_hard_failure_stops_retry (os : OsCalls) (volumePath : LPCWSTR) (k : Nat)
    (hopen : os.CreateFileW volumePath ≠ INVALID_HANDLE_VALUE)
    (hmade : k < numCtl CtlCode.FSCTL_LOCK_VOLUME (EjectVolumeByPath os volumePath).trace)
    (hfail : (os.lock k).ok = false)
    (hother : ¬ isContention (os.lock k).err) :
    numCtl CtlCode.FSCTL_LOCK_VOLUME (EjectVolumeByPath os volumePath).trace = k + 1 ∧
    numWaits (EjectVolumeByPath os volumePath).trace = k ∧
    lockHeld os volumePath = false ∧
    numCtl CtlCode.FSCTL_UNLOCK_VOLUME (EjectVolumeByPath os volumePath).trace = 0 ∧
    ∃ pre post, osOps (EjectVolumeByPath os volumePath).trace
        = pre ++ [evLock (os.CreateFileW volumePath), evDismount (os.CreateFileW volumePath)]
            ++ post
      ∧ numCtl CtlCode.FSCTL_LOCK_VOLUME pre = k
      ∧ numCtl CtlCode.FSCTL_LOCK_VOLUME post = 0 ∧ numWaits post = 0 := by
  obtain ⟨k1, held, hk1, hpre, -, hheld, hl⟩ := lockLoop_shape os (os.CreateFileW volumePath)
  have hc := trace_counts os volumePath hopen k1 held hk1 hl
  have hkk : k1 = k := by
    rw [hc.1] at hmade
    rcases Nat.lt_or_ge k k1 with hlt | hge
    · exact absurd (hpre k hlt).2 hother
    · omega
  subst hkk
  rw [hfail] at hheld
  subst hheld
  refine ⟨hc.1, hc.2.1, by simp [lockHeld, hl], by simpa using hc.2.2,
    (osOps (EjectVolumeByPath os volumePath).trace).take (2 * k1 + 1),
    (osOps (EjectVolumeByPath os volumePath).trace).drop (2 * k1 + 3), ?_⟩
  simp only [MAX_EJECT_RETRIES] at hk1
  interval_cases k1 <;> cases hd : os.dismount.ok <;> cases he : os.eject.ok <;>
    cases hu : os.unlock.ok <;>
    simp [EjectVolumeByPath, hopen, hd, he, hu, hl, lockPattern, numCtl, numWaits,
      Event.isCtl, Event.isSleep, osOps, Event.isPrint]

/-- Witness of C7 (`lock_hard_failure_stops_retry`): the second attempt fails with error 1. -/
theorem lock_hard_failure_stops_retry_witness :
    numCtl CtlCode.FSCTL_LOCK_VOLUME (EjectVolumeByPath osLockUnsupported "E:").trace = 2 ∧
    numWaits (EjectVolumeByPath osLockUnsupported "E:").trace = 1 ∧
    lockHeld osLockUnsupported "E:" = false ∧
    numCtl CtlCode.FSCTL_UNLOCK_VOLUME (EjectVolumeByPath osLockUnsupported "E:").trace = 0 :=
  have h := lock_hard_failure_stops_retry osLockUnsupported "E:" 1 (by decide) (by decide) rfl
    (by decide)
  ⟨h.1, h.2.1, h.2.2.1, h.2.2.2.1⟩

/-- C8: in every run the eject command is issued at most once, exactly once when the open and
the dismount both succeeded, and only on the opened handle after a dismount request on that
handle earlier in the trace, that dismount having succeeded. -/
theorem eject_only_after_dismount (os : OsCalls) (volumePath : LPCWSTR) :
    numCtl CtlCode.IOCTL_STORAGE_EJECT_MEDIA (EjectVolumeByPath os volumePath).trace ≤ 1 ∧
    (os.CreateFileW volumePath ≠ INVALID_HANDLE_VALUE → os.dismount.ok = true →
      numCtl CtlCode.IOCTL_STORAGE_EJECT_MEDIA (EjectVolumeByPath os volumePath).trace = 1) ∧
    (∀ h, evEject h ∈ (EjectVolumeByPath os volumePath).trace →
      h = os.CreateFileW volumePath ∧ os.CreateFileW volumePath ≠ INVALID_HANDLE_VALUE ∧
      os.dismount.ok = true ∧
      ∃ pre post, (EjectVolumeByPath os volumePath).trace = pre ++ evEject h :: post
        ∧ evDismount h ∈ pre
        ∧ numCtl CtlCode.IOCTL_STORAGE_EJECT_MEDIA pre = 0
        ∧ numCtl CtlCode.IOCTL_STORAGE_EJECT_MEDIA post = 0) := by
  by_cases hopen : os.CreateFileW volumePath = INVALID_HANDLE_VALUE
  · simp [EjectVolumeByPath, hopen, numCtl, Event.isCtl]
  · obtain ⟨k, held, hk, -, -, -, hl⟩ := lockLoop_shape os (os.CreateFileW volumePath)
    simp only [MAX_EJECT_RETRIES] at hk
    refine ⟨?_, ?_, ?_⟩
    · interval_cases k <;> cases held <;> cases hd : os.dismount.ok <;>
        cases he : os.eject.ok <;> cases hu : os.unlock.ok <;>
        simp [EjectVolumeByPath, hopen, hd, he, hu, hl, lockPattern, numCtl, Event.isCtl]
    · intro _ hd
      interval_cases k <;> cases held <;> cases he : os.eject.ok <;> cases hu : os.unlock.ok <;>
        simp [EjectVolumeByPath, hopen, hd, he, hu, hl, lockPattern, numCtl, Event.isCtl]
    · intro h hmem
      have hh : h = os.CreateFileW volumePath ∧ os.dismount.ok = true := by
        interval_cases k <;> cases held <;> cases hd : os.dismount.ok <;>
          cases he : os.eject.ok <;> cases hu : os.unlock.ok <;>
          simp [EjectVolumeByPath, hopen, hd, he, hu, hl, lockPattern] at hmem ⊢ <;>
          exact hmem
      obtain ⟨rfl, hd⟩ := hh
      refine ⟨rfl, hopen, hd,
        (EjectVolumeByPath os volumePath).trace.take (2 + 3 * k + 1),
        (EjectVolumeByPath os volumePath).trace.drop (2 + 3 * k + 2), ?_⟩
      interval_cases k <;> cases held <;> cases he : os.eject.ok <;> cases hu : os.unlock.ok <;>
        simp [EjectVolumeByPath, hopen, hd, he, hu, hl, lockPattern, numCtl, Event.isCtl]

/-- Witness of C8 (`eject_only_after_dismount`) on the busy-twice run. -/
theorem eject_only_after_dismount_witness :
    numCtl CtlCode.IOCTL_STORAGE_EJECT_MEDIA (EjectVolumeByPath osBusyTwice "E:").trace = 1 ∧
    osBusyTwice.dismount.ok = true :=
  ⟨(eject_only_after_dismount osBusyTwice "E:").2.1 (by decide) rfl,
   ((eject_only_after_dismount osBusyTwice "E:").2.2 7 (by decide)).2.2.1⟩

/-- C9: for `k` in 1..3, when the open succeeds, the first `k - 1` lock attempts fail with a
contention-class error and attempt `k` succeeds, there are exactly `k` lock attempts and
`k - 1` waits, each of 500 ms, the lock is held, and one unlock is requested, right before the
close, whatever the dismount, eject and unlock outcomes.  On the scenario run (busy, busy,
acquired, dismount ok, eject fails) the result is FALSE and the OS operations are open, lock,
wait 500, lock, wait 500, lock, dismount, eject, unlock, close. -/
theorem lock_acquired_on_retry :
    (∀ (os : OsCalls) (volumePath : LPCWSTR) (k : Nat),
      os.CreateFileW volumePath ≠ INVALID_HANDLE_VALUE → 1 ≤ k → k ≤ 3 →
      (∀ j, j + 1 < k → (os.lock j).ok = false ∧ isContention (os.lock j).err) →
      (os.lock (k - 1)).ok = true →
        numCtl CtlCode.FSCTL_LOCK_VOLUME (EjectVolumeByPath os volumePath).trace = k ∧
        numWaits (EjectVolumeByPath os volumePath).trace = k - 1 ∧
        (∀ ms, Event.Sleep ms ∈ (EjectVolumeByPath os volumePath).trace → ms = 500) ∧
        lockHeld os volumePath = true ∧
        numCtl CtlCode.FSCTL_UNLOCK_VOLUME (EjectVolumeByPath os volumePath).trace = 1 ∧
        ∃ pre, osOps (EjectVolumeByPath os volumePath).trace
          = pre ++ [evUnlock (os.CreateFileW volumePath),
                    Event.CloseHandle (os.CreateFileW volumePath)]) ∧
    ((EjectVolumeByPath osBusyTwice "E:").ret = false ∧
      osOps (EjectVolumeByPath osBusyTwice "E:").trace
        = [Event.CreateFileW "E:", evLock 7, Event.Sleep 500, evLock 7, Event.Sleep 500,
           evLock 7, evDismount 7, evEject 7, evUnlock 7, Event.CloseHandle 7]) := by
  refine ⟨?_, rfl, rfl⟩
  intro os volumePath k hopen hk1 hk3 hpre hok
  have hl := lockLoop_stop os (os.CreateFileW volumePath) (k - 1)
    (by simp only [MAX_EJECT_RETRIES]; omega) (fun j hj => hpre j (by omega)) (Or.inl hok)
  rw [hok] at hl
  have hc := trace_counts os volumePath hopen (k - 1) true
    (by simp only [MAX_EJECT_RETRIES]; omega) hl
  refine ⟨by rw [hc.1]; omega, hc.2.1, ?_, by simp [lockHeld, hl], by simpa using hc.2.2,
    (osOps (EjectVolumeByPath os volumePath).trace).take
      ((osOps (EjectVolumeByPath os volumePath).trace).length - 2), ?_⟩
  · intro ms
    interval_cases k <;> cases hd : os.dismount.ok <;> cases he : os.eject.ok <;>
      cases hu : os.unlock.ok <;>
      simp [EjectVolumeByPath, hopen, hd, he, hu, hl, lockPattern, EJECT_RETRY_DELAY_MS]
  · interval_cases k <;> cases hd : os.dismount.ok <;> cases he : os.eject.ok <;>
      cases hu : os.unlock.ok <;>
      simp [EjectVolumeByPath, hopen, hd, he, hu, hl, lockPattern, osOps, Event.isPrint]

/-- Witness of C9 (`lock_acquired_on_retry`): the general part applied to the scenario run
with `k = 3`. -/
theorem lock_acquired_on_retry_witness :
    numCtl CtlCode.FSCTL_LOCK_VOLUME (EjectVolumeByPath osBusyTwice "E:").trace = 3 ∧
    numWaits (EjectVolumeByPath osBusyTwice "E:").trace = 3 - 1 ∧
    lockHeld osBusyTwice "E:" = true :=
  have h := lock_acquired_on_retry.1 osBusyTwice "E:" 3 (by decide) (by decide) (by decide)
    (fun j hj => by
      have hj2 : j < 2 := by omega
      simp [osBusyTwice, hj2, isContention]) rfl
  ⟨h.1, h.2.1, h.2.2.2.1⟩

/-- C10 as stated fails: on this run the only lock attempt fails with error 1, the lock step
ends without the lock, and the function prints no diagnostic at all. -/
theorem lock_failure_not_logged :
    (osLockRefused.lock 0).ok = false ∧
    lockHeld osLockRefused "E:" = false ∧
    EjectVolumeByPath osLockRefused "E:"
      = { ret := true,
          trace := [Event.CreateFileW "E:", evLock 7, evDismount 7, evEject 7,
                    Event.CloseHandle 7] } ∧
    (EjectVolumeByPath osLockRefused "E:").trace.filter Event.isPrint = [] :=
  ⟨rfl, rfl, rfl, rfl⟩

/-- The unlock issued after a failed dismount (line 89) has its result discarded: on this run
it fails with error 158 and the only diagnostic is the dismount one. -/
theorem unlock_failure_after_dismount_failure_not_logged :
    osDismountFails.unlock.ok = false ∧
    EjectVolumeByPath osDismountFails "E:"
      = { ret := false,
          trace := [Event.CreateFileW "E:", evLock 7, evDismount 7,
                    Event.print (Diag.dismountFailed "E:" 5), evUnlock 7,
                    Event.CloseHandle 7] } :=
  ⟨rfl, rfl⟩

/-- C10, amended: when the open succeeds, the outcomes of the lock attempts and of the unlock
never change the returned BOOL; every lock attempt but the last is followed by the retry
notice and the wait, while the attempt that ends the lock step is followed at once by the
dismount request, with no diagnostic; and when the unlock requested after the eject step
fails, the unlock-failed warning with its error code is printed between that unlock and the
close. -/
theorem absorbed_failures (os : OsCalls) (volumePath : LPCWSTR)
    (hopen : os.CreateFileW volumePath ≠ INVALID_HANDLE_VALUE) :
    (∀ (lock1 : Nat → Outcome) (unlock1 : Outcome),
      (EjectVolumeByPath { os with lock := lock1, unlock := unlock1 } volumePath).ret
        = (EjectVolumeByPath os volumePath).ret) ∧
    (∃ k post, k < MAX_EJECT_RETRIES
      ∧ (EjectVolumeByPath os volumePath).trace
        = [Event.CreateFileW volumePath] ++ lockPattern (os.CreateFileW volumePath) k
            ++ evDismount (os.CreateFileW volumePath) :: post
      ∧ numCtl CtlCode.FSCTL_LOCK_VOLUME post = 0
      ∧ post.count evRetry = 0) ∧
    (os.dismount.ok = true → lockHeld os volumePath = true → os.unlock.ok = false →
      ∃ pre, (EjectVolumeByPath os volumePath).trace
        = pre ++ [evUnlock (os.CreateFileW volumePath),
                  Event.print (Diag.unlockFailed volumePath os.unlock.err),
                  Event.CloseHandle (os.CreateFileW volumePath)]) := by
  obtain ⟨k, held, hk, -, -, -, hl⟩ := lockLoop_shape os (os.CreateFileW volumePath)
  refine ⟨?_, ⟨k, (EjectVolumeByPath os volumePath).trace.drop (1 + (3 * k + 1) + 1), hk, ?_⟩,
    ?_⟩
  · intro lock1 unlock1
    cases hd : os.dismount.ok <;> simp [EjectVolumeByPath, hopen, hd]
  · simp only [MAX_EJECT_RETRIES] at hk
    interval_cases k <;> cases held <;> cases hd : os.dismount.ok <;>
      cases he : os.eject.ok <;> cases hu : os.unlock.ok <;>
      simp [EjectVolumeByPath, hopen, hd, he, hu, hl, lockPattern, numCtl, Event.isCtl]
  · intro hd hheld hu
    have hh : held = true := by simpa [lockHeld, hl] using hheld
    subst hh
    refine ⟨(EjectVolumeByPath os volumePath).trace.take
      ((EjectVolumeByPath os volumePath).trace.length - 3), ?_⟩
    simp only [MAX_EJECT_RETRIES] at hk
    interval_cases k <;> cases he : os.eject.ok <;>
      simp [EjectVolumeByPath, hopen, hd, he, hu, hl, lockPattern]

/-- Witness of C10 amended (`absorbed_failures`): the unlock after a successful eject fails,
the result stays TRUE and the warning is printed. -/
theorem absorbed_failures_witness :
    (EjectVolumeByPath osUnlockFails "E:").ret = true ∧
    ∃ pre, (EjectVolumeByPath osUnlockFails "E:").trace
      = pre ++ [evUnlock 7, Event.print (Diag.unlockFailed "E:" 158), Event.CloseHandle 7] :=
  ⟨rfl, (absorbed_failures osUnlockFails "E:" (by decide)).2.2 rfl rfl rfl⟩

end USBLogger
